import Mathlib

/-!
Verification of the TUN-mode engine of trojan-rs against its specification.

The development shallowly embeds the parts of the source that the checked
properties are about:

* the poll-token arithmetic and the event-dispatch `match` of
  `src/wintun/mod.rs` (`run`, constants `RESOLVER`, `MIN_INDEX`, `MAX_INDEX`,
  `CHANNEL_CNT`, `CHANNEL_IDLE`, `CHANNEL_UDP`, `CHANNEL_TCP`);
* the TUN read loop `do_tun_read` of `src/wintun/mod.rs`;
* `TlsServer::accept` / `TlsServer::next_index` of `src/server/tls_server.rs`;
* `UdpBackend::do_send` / `UdpBackend::do_read` of
  `src/server/udp_backend.rs`;
* `start_tcp_proxy` of `src/aproxy/tcp.rs`.

Machine integers are modelled as `Nat`; `usize` overflow is made explicit
against `USIZE_MAX`.  External collaborators that are not part of the sources
(the Trojan codec in `proto.rs`, `TlsConn::write_session` in `tls_conn.rs`,
the `is_private` predicate in `wintun/ip.rs`, the OS sockets and the smoltcp
packet parsers) are modelled from the specification, or taken as oracle
inputs listing the results the collaborator returns call by call.
-/

namespace TrojanRs

/-! ## Constants from `src/wintun/mod.rs` -/

/-- The largest value of the 64-bit `usize` type. -/
def USIZE_MAX : Nat := 2 ^ 64 - 1

/-- Token used for the DNS resolver (`src/wintun/mod.rs`). -/
def RESOLVER : Nat := 1

/-- Number of poll-token channels per connection index. -/
def CHANNEL_CNT : Nat := 3

/-- Smallest connection index handed out. -/
def MIN_INDEX : Nat := 2

/-- Largest connection index: `usize::MAX / CHANNEL_CNT`. -/
def MAX_INDEX : Nat := USIZE_MAX / CHANNEL_CNT

/-- Channel index for the `IdlePool`. -/
def CHANNEL_IDLE : Nat := 0

/-- Channel index for client `UdpConnection`s. -/
def CHANNEL_UDP : Nat := 1

/-- Channel index for remote TCP connections. -/
def CHANNEL_TCP : Nat := 2

/-! ## Poll-token arithmetic -/

/-- Poll token of channel `channel` of connection index `index`
(`index * CHANNEL_CNT + channel`, mathematically, before any `usize`
wrap-around). -/
def token (index channel : Nat) : Nat := index * CHANNEL_CNT + channel

/-- `TlsServer::token2index`: recover the connection index from a token. -/
def token2index (t : Nat) : Nat := t / CHANNEL_CNT

/-- Where the event loop of `run` in `src/wintun/mod.rs` sends a readiness
event. -/
inductive DispatchTarget where
  | resolver
  | pool
  | udpRemote
  | tcpRemote
deriving DecidableEq

/-- The dispatch `match` on `event.token().0` in `run`
(`src/wintun/mod.rs`): the arms are tried in source order. -/
def dispatch (t : Nat) : DispatchTarget :=
  if t = RESOLVER then .resolver
  else if t % CHANNEL_CNT = CHANNEL_IDLE then .pool
  else if t % CHANNEL_CNT = CHANNEL_UDP then .udpRemote
  else .tcpRemote

/-! ## `TlsServer` index allocation and accept loop
(`src/server/tls_server.rs`) -/

/-- The slice of `TlsServer` state that `accept` and `next_index` touch:
the allocation counter `next_id` and the keys of the live `conns` map. -/
structure TlsServer where
  next_id : Nat
  conns : List Nat
deriving DecidableEq

/-- `TlsServer::next_index`: return the current counter, advance it by one,
and wrap to `MIN_INDEX` once the counter passes `MAX_INDEX`.  The function
does not look at `conns`. -/
def next_index (s : TlsServer) : Nat × TlsServer :=
  let index := s.next_id
  let next := s.next_id + 1
  (index, { s with next_id := if next > MAX_INDEX then MIN_INDEX else next })

/-- The index handed out by the `n`-th call to `next_index` starting from
state `s` (counting from 0). -/
def nextIndexIter (s : TlsServer) : Nat → Nat
  | 0 => (next_index s).fst
  | n + 1 => nextIndexIter (next_index s).snd n

/-- Outcome of one `listener.accept()` call inside `TlsServer::accept`,
together with the per-connection setup results that follow it
(`set_nodelay`, `TlsConn::register`). -/
inductive AcceptResult where
  | conn (nodelayOk registerOk : Bool)
  | wouldBlock
  | fatalErr
deriving DecidableEq

/-- `TlsServer::accept` over the list of results the listener returns call
by call.  `Except.error` is the `std::panic::panic_any(err)` arm; a
`set_nodelay` failure `continue`s without consuming an index; a failed
`register` consumes the index but discards the connection (it is shut
down, not inserted into `conns`). -/
def accept (s : TlsServer) : List AcceptResult → Except Unit TlsServer
  | [] => .ok s
  | .wouldBlock :: _ => .ok s
  | .fatalErr :: _ => .error ()
  | .conn nodelayOk registerOk :: rest =>
    if nodelayOk then
      let (index, s') := next_index s
      if registerOk then accept { s' with conns := index :: s'.conns } rest
      else accept s' rest
    else accept s rest

/-! ## Trojan codec (modelled from the spec; `proto.rs` is not among the
sources) -/

/-- A socket address as carried by `std::net::SocketAddr`: an IPv4 address
(four octets) or an IPv6 address (sixteen octets) together with a 16-bit
port. -/
inductive SockAddr where
  | v4 (a b c d : Nat) (port : Nat)
  | v6 (octets : List Nat) (port : Nat)
deriving DecidableEq

/-- Modelled from the spec: the SOCKS5-compatible address encoding used by
the Trojan wire format, `0x01` + 4 bytes for IPv4 or `0x04` + 16 bytes for
IPv6, followed by the 16-bit big-endian port. -/
def encodeAddr : SockAddr → List Nat
  | .v4 a b c d port => [1, a, b, c, d, port / 256 % 256, port % 256]
  | .v6 octets port => 4 :: (octets ++ [port / 256 % 256, port % 256])

/-- Modelled from the spec: `UdpAssociate::generate` appends a UDP frame
header to the buffer: SOCKS5 address, 16-bit big-endian payload length,
CRLF.  The length argument is a `u16` at the call sites. -/
def UdpAssociate.generate (addr : SockAddr) (length : Nat) : List Nat :=
  encodeAddr addr ++ [length / 256 % 256, length % 256] ++ [13, 10]

/-- Result of `UdpAssociate::parse`. -/
inductive UdpParseResult where
  | packet (address : SockAddr) (length : Nat) (payload : List Nat)
  | invalidProtocol
  | continued
deriving DecidableEq

/-- Modelled from the spec: `UdpAssociate::parse` decodes one UDP frame,
SOCKS5 address + 16-bit big-endian length + CRLF + `payload[length]`.  It
returns `continued` when the buffer holds only a proper prefix of a valid
frame (incomplete header, or complete header with fewer than `length`
payload bytes), `invalidProtocol` on a structural violation (unknown
address type, missing CRLF), and otherwise the packet, whose `payload`
field is the whole remainder of the buffer (the frame's payload is its
first `length` bytes, as at the `send_to` call site). -/
def UdpAssociate.parse (buf : List Nat) : UdpParseResult :=
  match buf with
  | [] => .continued
  | 1 :: rest =>
    match rest with
    | a :: b :: c :: d :: p0 :: p1 :: l0 :: l1 :: cr :: lf :: payload =>
      if cr = 13 ∧ lf = 10 then
        let len := l0 * 256 + l1
        if payload.length < len then .continued
        else .packet (.v4 a b c d (p0 * 256 + p1)) len payload
      else .invalidProtocol
    | _ => .continued
  | 4 :: rest =>
    if rest.length < 22 then .continued
    else if rest.getD 20 0 = 13 ∧ rest.getD 21 0 = 10 then
      let len := rest.getD 18 0 * 256 + rest.getD 19 0
      let payload := rest.drop 22
      if payload.length < len then .continued
      else
        .packet (.v6 (rest.take 16) (rest.getD 16 0 * 256 + rest.getD 17 0))
          len payload
    else .invalidProtocol
  | _ :: _ => .invalidProtocol

/-- Trojan command byte for `CONNECT`. -/
def CONNECT : Nat := 1

/-- Trojan command byte for `UDP_ASSOCIATE`. -/
def UDP_ASSOCIATE : Nat := 3

/-- Modelled from the spec: `TrojanRequest::generate` appends the request
header: 56 hex characters of the password hash (taken abstractly as a byte
list), CRLF, the command byte, the SOCKS5 destination address, CRLF. -/
def TrojanRequest.generate (passHash : List Nat) (cmd : Nat) (dst : SockAddr) :
    List Nat :=
  passHash ++ [13, 10] ++ [cmd] ++ encodeAddr dst ++ [13, 10]

/-! ## TLS session buffer (modelled from the spec; `tls_conn.rs` is not
among the sources) -/

/-- Modelled from the spec: the plaintext side of a `TlsConn` session.
`buf` is the plaintext enqueued so far; `cap` stands for the session's
internal limits. -/
structure TlsSession where
  buf : List Nat
  cap : Nat
deriving DecidableEq

/-- Modelled from the spec: `TlsConn::write_session` enqueues plaintext
into the session and fails (the caller then moves to `Closing`) when the
session's internal limits would be exceeded; nothing is enqueued in that
case. -/
def write_session (s : TlsSession) (bytes : List Nat) : Option TlsSession :=
  if s.buf.length + bytes.length ≤ s.cap then
    some { s with buf := s.buf ++ bytes }
  else none

/-! ## `UdpBackend` (`src/server/udp_backend.rs`) -/

/-- Connection status (spec §3 / `tls_conn::ConnStatus`). -/
inductive ConnStatus where
  | PreConnecting
  | Connecting
  | Established
  | Shutdown
  | Closing
  | Closed
deriving DecidableEq

/-- The fields of `UdpBackend` the embedded operations touch.  The mio
`UdpSocket` itself is external state; its per-call results are passed to
the operations as oracle lists. -/
structure UdpBackend where
  send_buffer : List Nat
  status : ConnStatus
  index : Nat
  bytes_read : Nat
  bytes_sent : Nat
  remote_addr : SockAddr
deriving DecidableEq

/-- Result of one `socket.send_to` call. -/
inductive SendResult where
  | ok (size : Nat)
  | wouldBlock
  | err
deriving DecidableEq

/-- The `if let ConnStatus::Shutdown` block at the end of
`UdpBackend::do_send`: a backend in `Shutdown` with nothing left to send
moves to `Closing`. -/
def checkShutdown (b : UdpBackend) : UdpBackend :=
  if b.status = .Shutdown ∧ b.send_buffer = [] then { b with status := .Closing }
  else b

/-- `UdpBackend::do_send`: parse `buffer` as a sequence of Trojan UDP
frames and forward each payload with `send_to`.  `sends` lists the results
of the successive `send_to` calls (an exhausted list behaves like
`WouldBlock`); the leftover list is returned.  A send shorter than the
frame's declared length, a send error, and an `invalidProtocol` parse all
set the status to `Closing` and return immediately; `continued` and
`WouldBlock` stash the unconsumed bytes in `send_buffer` and fall through
to the `Shutdown` check. -/
def do_send (sends : List SendResult) (b : UdpBackend) (buffer : List Nat) :
    UdpBackend × List SendResult :=
  match UdpAssociate.parse buffer with
  | .invalidProtocol => ({ b with status := .Closing }, sends)
  | .continued =>
    (checkShutdown { b with send_buffer := b.send_buffer ++ buffer }, sends)
  | .packet _ len payload =>
    match sends with
    | [] => (checkShutdown { b with send_buffer := b.send_buffer ++ buffer }, [])
    | .ok size :: rest =>
      if size = len then
        do_send rest { b with bytes_sent := b.bytes_sent + size }
          (payload.drop len)
      else ({ b with bytes_sent := b.bytes_sent + size, status := .Closing }, rest)
    | .wouldBlock :: rest =>
      (checkShutdown { b with send_buffer := b.send_buffer ++ buffer }, rest)
    | .err :: rest => ({ b with status := .Closing }, rest)
termination_by sends.length
decreasing_by simp

/-- A UDP datagram as delivered by one successful `recv_from`: the payload
bytes and the peer address. -/
structure Datagram where
  payload : List Nat
  addr : SockAddr
deriving DecidableEq

/-- Result of one `socket.recv_from` call. -/
inductive RecvResult where
  | ok (d : Datagram)
  | wouldBlock
  | err
deriving DecidableEq

/-- `UdpBackend::do_read`: drain the UDP socket (`recvs` lists the results
of the successive `recv_from` calls; an exhausted list behaves like
`WouldBlock`) and enqueue, per datagram, one generated frame header
(`UdpAssociate::generate` with the peer address and `size as u16`) followed
by the payload into the TLS session.  Either write failing moves the
backend to `Closing` and stops the loop. -/
def do_read : List RecvResult → UdpBackend → TlsSession → UdpBackend × TlsSession
  | [], b, conn => (b, conn)
  | .wouldBlock :: _, b, conn => (b, conn)
  | .err :: _, b, conn => ({ b with status := .Closing }, conn)
  | .ok d :: rest, b, conn =>
    match write_session conn (UdpAssociate.generate d.addr (d.payload.length % 65536)) with
    | none =>
      ({ b with remote_addr := d.addr,
                bytes_read := b.bytes_read + d.payload.length,
                status := .Closing }, conn)
    | some conn' =>
      match write_session conn' d.payload with
      | none =>
        ({ b with remote_addr := d.addr,
                  bytes_read := b.bytes_read + d.payload.length,
                  status := .Closing }, conn')
      | some conn'' =>
        do_read rest
          { b with remote_addr := d.addr,
                   bytes_read := b.bytes_read + d.payload.length }
          conn''

/-- The Trojan UDP frame produced for one received datagram: generated
header (length field is the payload length as `u16`) followed by the
payload bytes. -/
def udpFrame (d : Datagram) : List Nat :=
  UdpAssociate.generate d.addr (d.payload.length % 65536) ++ d.payload

/-! ## TUN reader `do_tun_read` (`src/wintun/mod.rs`) -/

/-- An L3 endpoint (`smoltcp::wire::IpEndpoint`): an address (abstract)
plus a port. -/
structure Endpoint where
  addr : Nat
  port : Nat
deriving DecidableEq

/-- The fields of a TCP header that `do_tun_read` reads. -/
structure TcpHeader where
  srcPort : Nat
  dstPort : Nat
  syn : Bool
  ack : Bool
  fin : Bool
  payloadEmpty : Bool
deriving DecidableEq

/-- The fields of a UDP header that `do_tun_read` reads. -/
structure UdpHeader where
  srcPort : Nat
  dstPort : Nat
deriving DecidableEq

/-- Outcome of parsing the L4 header of a packet.  `none` is the oracle
for `UdpPacket::new_checked` / `TcpPacket::new_checked` returning `Err`,
which the source unwraps. -/
inductive L4 where
  | udp (hdr : Option UdpHeader)
  | tcp (hdr : Option TcpHeader)
  | other
deriving DecidableEq

/-- One frame received from the TUN device, as seen through the smoltcp
parsers the source calls on it: the constructors mirror the possible
outcomes of `IpVersion::of_packet` and `Ipv4Packet::new_checked` /
`Ipv6Packet::new_checked`, which are external parsers and therefore enter
the model as oracles. -/
inductive TunPacket where
  | badIpVersion
  | unspecifiedVersion
  | ipv4Bad
  | ipv6Bad
  | ipv4 (src dst : Nat) (proto : L4)
  | ipv6 (src dst : Nat) (proto : L4)
deriving DecidableEq

/-- A socket in the smoltcp socket set, restricted to the fields
`do_tun_read` matches on: a TCP socket's local and remote endpoints (a
freshly listening socket has no remote endpoint yet) or a UDP socket's
bound endpoint. -/
inductive StackSocket where
  | tcp (localEp remoteEp : Option Endpoint)
  | udp (endpoint : Endpoint)
deriving DecidableEq

/-- The smoltcp socket set: handles paired with sockets, plus the next
fresh handle. -/
structure SocketSet where
  sockets : List (Nat × StackSocket)
  nextHandle : Nat
deriving DecidableEq

/-- `Interface::add_socket`: append the socket under a fresh handle. -/
def addSocket (ss : SocketSet) (s : StackSocket) : Nat × SocketSet :=
  (ss.nextHandle,
   { sockets := ss.sockets ++ [(ss.nextHandle, s)],
     nextHandle := ss.nextHandle + 1 })

/-- The `find_map` over the socket set in the non-connect TCP arm of
`do_tun_read`: the first TCP socket whose local endpoint is `localEp` and
whose remote endpoint is `remoteEp`. -/
def findTcp (ss : SocketSet) (localEp remoteEp : Endpoint) : Option Nat :=
  ss.sockets.findSome? fun p =>
    match p.snd with
    | .tcp l r => if l = some localEp ∧ r = some remoteEp then some p.fst else none
    | _ => none

/-- The `find_map` over the socket set in the UDP arm of `do_tun_read`:
the first UDP socket bound to `ep`. -/
def findUdp (ss : SocketSet) (ep : Endpoint) : Option Nat :=
  ss.sockets.findSome? fun p =>
    match p.snd with
    | .udp e => if e = ep then some p.fst else none
    | _ => none

/-- How a `do_tun_read` run can end abnormally.  The `…Unwrap` cases are
panics at the source's `.unwrap()` calls (header parsers and
`TcpSocket::listen`); `bindFailed` is the `?`-propagated error of
`UdpSocket::bind`. -/
inductive TunError where
  | ipVersionUnwrap
  | ipv4HeaderUnwrap
  | ipv6HeaderUnwrap
  | udpHeaderUnwrap
  | tcpHeaderUnwrap
  | tcpListenUnwrap
  | bindFailed
deriving DecidableEq

/-- `do_tun_read` (`src/wintun/mod.rs`) over the list of frames the TUN
session delivers, threading the socket set and the two handle
accumulators.  `isPriv` is the installed `is_private` predicate
(`wintun/ip.rs`, an external collaborator).  `smoltcp` rejects port 0 in
`listen` and `bind` (`Error::Unaddressable`); the former is unwrapped (a
panic), the latter propagated with `?`.  The `sender.try_send` of the raw
bytes into the stack's inbound queue only logs on overflow and is not
modelled. -/
def do_tun_read (isPriv : Endpoint → Bool) :
    List TunPacket → SocketSet → List Nat → List Nat →
    Except TunError (SocketSet × List Nat × List Nat)
  | [], ss, udpHandles, tcpHandles => .ok (ss, udpHandles, tcpHandles)
  | pkt :: rest, ss, udpHandles, tcpHandles =>
    match pkt with
    | .badIpVersion => .error .ipVersionUnwrap
    | .unspecifiedVersion => do_tun_read isPriv rest ss udpHandles tcpHandles
    | .ipv4Bad => .error .ipv4HeaderUnwrap
    | .ipv6Bad => .error .ipv6HeaderUnwrap
    | .ipv4 src dst proto | .ipv6 src dst proto =>
      match proto with
      | .udp none => .error .udpHeaderUnwrap
      | .tcp none => .error .tcpHeaderUnwrap
      | .other => do_tun_read isPriv rest ss udpHandles tcpHandles
      | .udp (some hdr) =>
        let dstEp : Endpoint := ⟨dst, hdr.dstPort⟩
        if isPriv dstEp then do_tun_read isPriv rest ss udpHandles tcpHandles
        else
          match findUdp ss dstEp with
          | some h => do_tun_read isPriv rest ss (udpHandles ++ [h]) tcpHandles
          | none =>
            if dstEp.port = 0 then .error .bindFailed
            else
              let (h, ss') := addSocket ss (.udp dstEp)
              do_tun_read isPriv rest ss' (udpHandles ++ [h]) tcpHandles
      | .tcp (some hdr) =>
        let srcEp : Endpoint := ⟨src, hdr.srcPort⟩
        let dstEp : Endpoint := ⟨dst, hdr.dstPort⟩
        let notify := !hdr.payloadEmpty || hdr.fin
        let connect := hdr.syn && !hdr.ack
        if isPriv dstEp then do_tun_read isPriv rest ss udpHandles tcpHandles
        else if connect then
          if dstEp.port = 0 then .error .tcpListenUnwrap
          else
            let (h, ss') := addSocket ss (.tcp (some dstEp) none)
            do_tun_read isPriv rest ss' udpHandles
              (if notify then tcpHandles ++ [h] else tcpHandles)
        else
          match findTcp ss dstEp srcEp with
          | some h =>
            do_tun_read isPriv rest ss udpHandles
              (if notify then tcpHandles ++ [h] else tcpHandles)
          | none => do_tun_read isPriv rest ss udpHandles tcpHandles

/-! ## `start_tcp_proxy` (`src/aproxy/tcp.rs`) -/

/-- How one `start_tcp_proxy` task can run: the TCP connect to the relay
fails, the TLS handshake fails, the `write_all` of the request fails after
`k` bytes, or everything succeeds. -/
inductive ProxyOutcome where
  | connectFail
  | tlsHandshakeFail
  | writeFail (k : Nat)
  | success
deriving DecidableEq

/-- Observable trace of one `start_tcp_proxy` task: the bytes written to
the remote TLS stream in order, whether each stream was shut down, and
whether the two payload-copy tasks were spawned. -/
structure ProxyTrace where
  remoteStream : List Nat
  remoteShutdown : Bool
  localShutdown : Bool
  copySpawned : Bool
deriving DecidableEq

/-- `start_tcp_proxy` (`src/aproxy/tcp.rs`).  The request is generated and
written with `write_all` before the copy tasks are spawned, so on success
the remote stream carries the full request followed by whatever the
local-to-remote copy forwards (`localPayload`); a failed `write_all` shuts
both streams down and spawns no copy.  Connect or handshake failures
return early via `?` with nothing written. -/
def start_tcp_proxy (passHash : List Nat) (dst : SockAddr)
    (outcome : ProxyOutcome) (localPayload : List Nat) : ProxyTrace :=
  let request := TrojanRequest.generate passHash CONNECT dst
  match outcome with
  | .connectFail =>
    { remoteStream := [], remoteShutdown := false, localShutdown := false,
      copySpawned := false }
  | .tlsHandshakeFail =>
    { remoteStream := [], remoteShutdown := false, localShutdown := false,
      copySpawned := false }
  | .writeFail k =>
    { remoteStream := request.take k, remoteShutdown := true,
      localShutdown := true, copySpawned := false }
  | .success =>
    { remoteStream := request ++ localPayload, remoteShutdown := false,
      localShutdown := false, copySpawned := true }

/-! ## Theorems -/

/-- C4, counterexample: the claim asserts that `index * CHANNEL_CNT +
channel` never overflows `usize` for `channel < CHANNEL_CNT` and `index ∈
[MIN_INDEX, MAX_INDEX]`.  Since `3 * MAX_INDEX = usize::MAX` exactly, the
token of channel `CHANNEL_UDP` at index `MAX_INDEX` already exceeds
`usize::MAX`. -/
theorem C4_token_overflow_counterexample :
    MIN_INDEX ≤ MAX_INDEX ∧ CHANNEL_UDP < CHANNEL_CNT ∧
      USIZE_MAX < token MAX_INDEX CHANNEL_UDP := by
  refine ⟨by decide, by decide, ?_⟩
  show USIZE_MAX < MAX_INDEX * CHANNEL_CNT + CHANNEL_UDP
  norm_num [MAX_INDEX, USIZE_MAX, CHANNEL_CNT, CHANNEL_UDP]

/-- C4 (amended): for channels below `CHANNEL_CNT` and indices in
`[MIN_INDEX, MAX_INDEX]` whose token does not overflow `usize`, the token
differs from `RESOLVER`, `token2index` (division) recovers the index, the
remainder recovers the channel, and the construction is injective, so two
objects holding distinct (index, channel) pairs never share a token. -/
theorem C4_token_arithmetic (i c j d : Nat)
    (hi : MIN_INDEX ≤ i) (hi2 : i ≤ MAX_INDEX) (hc : c < CHANNEL_CNT)
    (hj : MIN_INDEX ≤ j) (hj2 : j ≤ MAX_INDEX) (hd : d < CHANNEL_CNT)
    (hno : token i c ≤ USIZE_MAX) (hno2 : token j d ≤ USIZE_MAX) :
    token i c ≠ RESOLVER ∧ token2index (token i c) = i ∧
      token i c % CHANNEL_CNT = c ∧
      (token i c = token j d → i = j ∧ c = d) := by
  simp only [token, token2index, RESOLVER, CHANNEL_CNT, MIN_INDEX] at *
  refine ⟨by omega, by omega, by omega, fun h => by omega⟩

/-- C4, witness for the amended theorem at indices 2 and 3, channels 1
and 0. -/
theorem C4_token_arithmetic_witness :
    token 2 1 ≠ RESOLVER ∧ token2index (token 2 1) = 2 ∧
      token 2 1 % CHANNEL_CNT = 1 ∧
      (token 2 1 = token 3 0 → 2 = 3 ∧ 1 = 0) :=
  C4_token_arithmetic 2 1 3 0 (by decide) (by norm_num [MIN_INDEX, MAX_INDEX, USIZE_MAX, CHANNEL_CNT])
    (by decide) (by decide) (by norm_num [MIN_INDEX, MAX_INDEX, USIZE_MAX, CHANNEL_CNT]) (by decide)
    (by norm_num [token, USIZE_MAX, CHANNEL_CNT]) (by norm_num [token, USIZE_MAX, CHANNEL_CNT])

/-- C6: each readiness event is dispatched solely by decoding its token:
`RESOLVER` goes to the resolver drain, and for any other token the
remainder modulo `CHANNEL_CNT` selects the pool (`CHANNEL_IDLE`), the UDP
flow manager's remote side (`CHANNEL_UDP`), or, in every remaining case,
the TCP flow manager's remote side. -/
theorem C6_event_dispatch (t : Nat) (h : t ≠ RESOLVER) :
    dispatch RESOLVER = .resolver ∧
      (t % CHANNEL_CNT = CHANNEL_IDLE → dispatch t = .pool) ∧
      (t % CHANNEL_CNT = CHANNEL_UDP → dispatch t = .udpRemote) ∧
      (t % CHANNEL_CNT ≠ CHANNEL_IDLE → t % CHANNEL_CNT ≠ CHANNEL_UDP →
        dispatch t = .tcpRemote) := by
  refine ⟨by decide, fun h0 => ?_, fun h1 => ?_, fun h0 h1 => ?_⟩
  · unfold dispatch
    rw [if_neg h, if_pos h0]
  · unfold dispatch
    rw [if_neg h, if_neg (by rw [h1]; decide), if_pos h1]
  · unfold dispatch
    rw [if_neg h, if_neg h0, if_neg h1]

/-- C6, witness at token 3 (pool channel of index 1 is never live, but the
arithmetic of the dispatch arm is the same; 3 ≠ RESOLVER and 3 mod 3 =
CHANNEL_IDLE). -/
theorem C6_event_dispatch_witness : dispatch 3 = DispatchTarget.pool :=
  (C6_event_dispatch 3 (by decide)).2.1 (by decide)

/-- C9: in `TlsServer::accept`, a `WouldBlock` from `accept()` ends the
loop normally with the server state unchanged; any other `accept()` error
panics the process; a `set_nodelay` failure skips the connection without
consuming an index, and a failed poll registration discards the connection
(consuming its index) — in both cases the loop goes on with the next
pending connection. -/
theorem C9_accept_errors (s : TrojanRs.TlsServer) (rest : List AcceptResult)
    (reg : Bool) :
    accept s (.wouldBlock :: rest) = .ok s ∧
      accept s (.fatalErr :: rest) = .error () ∧
      accept s (.conn false reg :: rest) = accept s rest ∧
      accept s (.conn true false :: rest) = accept (next_index s).snd rest :=
  ⟨rfl, rfl, rfl, rfl⟩

/-- C3, counterexample: the claim says a parse error in any header only
skips the offending packet and never aborts the read loop.  A frame whose
IP version nibble cannot be parsed makes `do_tun_read` panic at the
`IpVersion::of_packet(..).unwrap()` call, so the following well-formed
packet is never processed. -/
theorem C3_parse_error_aborts_counterexample :
    do_tun_read (fun _ => false)
        [.badIpVersion, .ipv4 5 6 (.udp (some ⟨1000, 53⟩))]
        ⟨[], 0⟩ [] []
      = .error .ipVersionUnwrap := rfl

/-- C3 (amended): a parse error in any header (IP version detection, IPv4
header, IPv6 header, UDP header, TCP header) aborts `do_tun_read` at the
corresponding `.unwrap()` — the rest of the batch is not processed — while
a packet with an unspecified (but recognized) IP version or a non-TCP/UDP
transport protocol is skipped and the loop continues with the next
packet. -/
theorem C3_parse_error_aborts (isPriv : Endpoint → Bool)
    (rest : List TunPacket) (ss : SocketSet)
    (udpHandles tcpHandles : List Nat) (src dst : Nat) :
    do_tun_read isPriv (.badIpVersion :: rest) ss udpHandles tcpHandles
        = .error .ipVersionUnwrap ∧
      do_tun_read isPriv (.ipv4Bad :: rest) ss udpHandles tcpHandles
        = .error .ipv4HeaderUnwrap ∧
      do_tun_read isPriv (.ipv6Bad :: rest) ss udpHandles tcpHandles
        = .error .ipv6HeaderUnwrap ∧
      do_tun_read isPriv (.ipv4 src dst (.udp none) :: rest) ss udpHandles tcpHandles
        = .error .udpHeaderUnwrap ∧
      do_tun_read isPriv (.ipv6 src dst (.tcp none) :: rest) ss udpHandles tcpHandles
        = .error .tcpHeaderUnwrap ∧
      do_tun_read isPriv (.unspecifiedVersion :: rest) ss udpHandles tcpHandles
        = do_tun_read isPriv rest ss udpHandles tcpHandles ∧
      do_tun_read isPriv (.ipv4 src dst .other :: rest) ss udpHandles tcpHandles
        = do_tun_read isPriv rest ss udpHandles tcpHandles :=
  ⟨rfl, rfl, rfl, rfl, rfl, rfl, rfl⟩

/-- C8: for a proxied TCP flow, the Trojan `CONNECT` request carrying the
flow's original destination is fully written to the remote TLS stream
before any payload byte from the local peer is forwarded (on success the
remote stream is exactly the request followed by the forwarded payload);
if writing the request fails, both streams are shut down, the copy tasks
are never spawned, and the remote stream holds only a prefix of the
request — never a payload byte. -/
theorem C8_connect_request_first (passHash : List Nat) (dst : SockAddr)
    (localPayload : List Nat) (k : Nat) :
    (start_tcp_proxy passHash dst .success localPayload).remoteStream
        = TrojanRequest.generate passHash CONNECT dst ++ localPayload ∧
      (start_tcp_proxy passHash dst (.writeFail k) localPayload).remoteShutdown = true ∧
      (start_tcp_proxy passHash dst (.writeFail k) localPayload).localShutdown = true ∧
      (start_tcp_proxy passHash dst (.writeFail k) localPayload).copySpawned = false ∧
      (start_tcp_proxy passHash dst (.writeFail k) localPayload).remoteStream
        = (TrojanRequest.generate passHash CONNECT dst).take k :=
  ⟨rfl, rfl, rfl, rfl, rfl⟩

/-- C5, counterexample: `next_index` never consults the `conns` map, so in
a server state whose counter has wrapped around to an index that is still
live (here `MIN_INDEX`), the next call hands that live index out again. -/
theorem C5_live_index_reuse_counterexample :
    (next_index { next_id := MIN_INDEX, conns := [MIN_INDEX] }).fst = MIN_INDEX ∧
      MIN_INDEX ∈ ({ next_id := MIN_INDEX, conns := [MIN_INDEX] } : TlsServer).conns := by
  exact ⟨rfl, by simp⟩

/-- Closed form of the sequence of indices `next_index` hands out: starting
from a counter in `[MIN_INDEX, MAX_INDEX]`, the `n`-th handed-out index is
`MIN_INDEX` plus the counter's offset advanced by `n`, modulo the period
`MAX_INDEX - MIN_INDEX + 1`. -/
theorem nextIndexIter_closed_form (n : Nat) :
    ∀ s : TlsServer, MIN_INDEX ≤ s.next_id → s.next_id ≤ MAX_INDEX →
      nextIndexIter s n
        = MIN_INDEX +
            ((s.next_id - MIN_INDEX + n) % (MAX_INDEX - MIN_INDEX + 1)) := by
  induction n with
  | zero =>
    intro s h1 h2
    have hlt : s.next_id - MIN_INDEX < MAX_INDEX - MIN_INDEX + 1 := by omega
    show (next_index s).fst = _
    rw [Nat.add_zero, Nat.mod_eq_of_lt hlt]
    simp only [next_index]
    omega
  | succ n ih =>
    intro s h1 h2
    show nextIndexIter (next_index s).snd n = _
    by_cases hc : s.next_id + 1 > MAX_INDEX
    · have hs : (next_index s).snd.next_id = MIN_INDEX := by
        simp only [next_index, if_pos hc]
      rw [ih _ (by rw [hs]) (by rw [hs]; omega), hs]
      have harg : MAX_INDEX - MIN_INDEX + (n + 1)
          = n + (MAX_INDEX - MIN_INDEX + 1) := by omega
      have hid : s.next_id = MAX_INDEX := by omega
      rw [hid, harg, Nat.add_mod_right, Nat.sub_self, Nat.zero_add]
    · have hs : (next_index s).snd.next_id = s.next_id + 1 := by
        simp only [next_index, if_neg hc]
      rw [ih _ (by omega) (by omega), hs]
      have harg : s.next_id + 1 - MIN_INDEX + n
          = s.next_id - MIN_INDEX + (n + 1) := by omega
      rw [harg]

/-- C5 (amended): `next_index` returns the current counter value and
advances it by one, wrapping back to `MIN_INDEX` after handing out
`MAX_INDEX`.  It performs no liveness check against `conns`, so freshness
holds only within a window: any two calls fewer than
`MAX_INDEX - MIN_INDEX + 1` allocations apart return distinct indices. -/
theorem C5_next_index_window (s : TlsServer) (m n : Nat)
    (h1 : MIN_INDEX ≤ s.next_id) (h2 : s.next_id ≤ MAX_INDEX)
    (hmn : m < n) (hwin : n - m < MAX_INDEX - MIN_INDEX + 1) :
    (next_index s).fst = s.next_id ∧
      (next_index s).snd.next_id
        = (if s.next_id + 1 > MAX_INDEX then MIN_INDEX else s.next_id + 1) ∧
      nextIndexIter s m ≠ nextIndexIter s n := by
  refine ⟨rfl, rfl, fun heq => ?_⟩
  rw [nextIndexIter_closed_form m s h1 h2, nextIndexIter_closed_form n s h1 h2] at heq
  have hmod : Nat.ModEq (MAX_INDEX - MIN_INDEX + 1)
      (s.next_id - MIN_INDEX + m) (s.next_id - MIN_INDEX + n) := by
    have := Nat.add_left_cancel heq
    exact this
  have hdvd := (Nat.modEq_iff_dvd' (by omega)).mp hmod
  have hsub : s.next_id - MIN_INDEX + n - (s.next_id - MIN_INDEX + m) = n - m := by
    omega
  rw [hsub] at hdvd
  have := Nat.le_of_dvd (by omega) hdvd
  omega

/-- C5, witness for the amended theorem: from a fresh server (counter at
`MIN_INDEX = 2`), the first two handed-out indices are 2 and 3 and
differ. -/
theorem C5_next_index_window_witness :
    (next_index { next_id := 2, conns := [] }).fst = 2 ∧
      (next_index { next_id := 2, conns := [] }).snd.next_id
        = (if 2 + 1 > MAX_INDEX then MIN_INDEX else 2 + 1) ∧
      nextIndexIter { next_id := 2, conns := [] } 0
        ≠ nextIndexIter { next_id := 2, conns := [] } 1 :=
  C5_next_index_window { next_id := 2, conns := [] } 0 1 (by decide)
    (by norm_num [MIN_INDEX, MAX_INDEX, USIZE_MAX, CHANNEL_CNT]) (by decide)
    (by norm_num [MIN_INDEX, MAX_INDEX, USIZE_MAX, CHANNEL_CNT])

/-- C2: for a TUN TCP packet with a parsed header and a non-private
destination, `do_tun_read` computes `connect = SYN && !ACK`.  When
`connect` holds it adds a fresh stack TCP socket listening on the
destination endpoint; otherwise it looks up the socket with local endpoint
= destination and remote endpoint = source, leaving the set unchanged.  In
both cases the handle enters `tcp_handles` exactly when the segment
carries a non-empty payload or the FIN flag. -/
theorem C2_tcp_packet (isPriv : Endpoint → Bool) (ss : SocketSet)
    (src dst : Nat) (hdr : TcpHeader)
    (hpriv : isPriv ⟨dst, hdr.dstPort⟩ = false) (hport : hdr.dstPort ≠ 0) :
    ((hdr.syn && !hdr.ack) = true →
      do_tun_read isPriv [.ipv4 src dst (.tcp (some hdr))] ss [] []
        = .ok ({ sockets := ss.sockets
                   ++ [(ss.nextHandle, .tcp (some ⟨dst, hdr.dstPort⟩) none)],
                 nextHandle := ss.nextHandle + 1 }, [],
               if (!hdr.payloadEmpty || hdr.fin) = true then [ss.nextHandle]
               else [])) ∧
    ((hdr.syn && !hdr.ack) = false →
      ∀ h, findTcp ss ⟨dst, hdr.dstPort⟩ ⟨src, hdr.srcPort⟩ = some h →
        do_tun_read isPriv [.ipv4 src dst (.tcp (some hdr))] ss [] []
          = .ok (ss, [],
                 if (!hdr.payloadEmpty || hdr.fin) = true then [h] else [])) := by
  constructor
  · intro hconn
    simp [do_tun_read, hpriv, hconn, hport, addSocket]
  · intro hconn h hfind
    simp [do_tun_read, hpriv, hconn, hport, hfind]

/-- C2, witness: a SYN segment without ACK and with a payload, addressed
to 6:443, creates the listening stack socket under fresh handle 0 and
notifies it. -/
theorem C2_tcp_packet_witness :
    do_tun_read (fun _ => false)
        [.ipv4 5 6 (.tcp (some ⟨1000, 443, true, false, false, false⟩))]
        ⟨[], 0⟩ [] []
      = .ok (⟨[(0, .tcp (some ⟨6, 443⟩) none)], 1⟩, [], [0]) :=
  (C2_tcp_packet (fun _ => false) ⟨[], 0⟩ 5 6
      ⟨1000, 443, true, false, false, false⟩ rfl (by decide)).1 rfl

/-- C7: when `UdpBackend::do_send` parses buffered TLS plaintext, an
`InvalidProtocol` parse moves only this backend's status to `Closing`
(nothing is sent, `send_buffer` and the counters are untouched, no other
state is reachable from the function), and a `Continued` parse stashes the
remaining bytes back into `send_buffer` and stops parsing — with no
`send_to` consumed — so the partial frame is retried when more bytes
arrive. -/
theorem C7_udp_frame_errors (sends : List SendResult) (b : UdpBackend)
    (buffer : List Nat) (hst : b.status = .Established) :
    (UdpAssociate.parse buffer = .invalidProtocol →
      do_send sends b buffer = ({ b with status := .Closing }, sends)) ∧
    (UdpAssociate.parse buffer = .continued →
      do_send sends b buffer
        = ({ b with send_buffer := b.send_buffer ++ buffer }, sends)) := by
  constructor
  · intro hp
    simp [do_send, hp]
  · intro hp
    simp [do_send, hp, checkShutdown, hst]

/-- Concrete backend state used by the witnesses: an established backend
with empty buffers and zeroed counters. -/
def b0 : UdpBackend :=
  { send_buffer := [], status := .Established, index := 7,
    bytes_read := 0, bytes_sent := 0, remote_addr := .v4 0 0 0 0 0 }

/-- C7, witness: byte `2` is an unknown address type (`InvalidProtocol`),
and `[1, 8]` is a two-byte prefix of a valid IPv4 frame (`Continued`). -/
theorem C7_udp_frame_errors_witness :
    do_send [] b0 [2] = ({ b0 with status := .Closing }, []) ∧
      do_send [] b0 [1, 8] = ({ b0 with send_buffer := [1, 8] }, []) :=
  ⟨(C7_udp_frame_errors [] b0 [2] rfl).1 (by decide),
   (C7_udp_frame_errors [] b0 [1, 8] rfl).2 (by decide)⟩

/-- C10: if `do_send` parses a frame and the `send_to` succeeds but
returns a count different from the frame's declared length, the backend
increments `bytes_sent` by the truncated count, moves to `Closing`, and
returns at once: no further `send_to` happens and the remaining bytes of
the buffer are abandoned (`send_buffer` is not extended). -/
theorem C10_truncated_send (sends rest : List SendResult) (b : UdpBackend)
    (buffer payload : List Nat) (addr : SockAddr) (len size : Nat)
    (hparse : UdpAssociate.parse buffer = .packet addr len payload)
    (hsends : sends = .ok size :: rest) (hne : size ≠ len) :
    do_send sends b buffer
      = ({ b with bytes_sent := b.bytes_sent + size, status := .Closing },
         rest) := by
  subst hsends
  simp [do_send, hparse, hne]

/-- C10, witness: a valid one-byte frame addressed to 9.9.9.9:53 whose
`send_to` reports 0 bytes sent. -/
theorem C10_truncated_send_witness :
    do_send [.ok 0] b0 [1, 9, 9, 9, 9, 0, 53, 0, 1, 13, 10, 42]
      = ({ b0 with bytes_sent := 0, status := .Closing }, []) :=
  C10_truncated_send [.ok 0] [] b0 [1, 9, 9, 9, 9, 0, 53, 0, 1, 13, 10, 42]
    [42] (.v4 9 9 9 9 53) 1 0 (by decide) rfl (by decide)

/-- A successful `write_session` appends exactly its argument to the
session's plaintext buffer. -/
theorem write_session_some (s s' : TlsSession) (bytes : List Nat)
    (h : write_session s bytes = some s') : s'.buf = s.buf ++ bytes := by
  unfold write_session at h
  split at h
  · cases h
    rfl
  · cases h

/-- C1: for every UDP datagram received in `UdpBackend::do_read` (payload
bytes plus peer address), when the drain completes without entering
`Closing` — i.e. every `write_session` succeeded — the TLS session's
plaintext buffer has grown by exactly one Trojan UDP frame per datagram:
the generated header with `length` = the datagram's payload length and
`addr` = the datagram's address, immediately followed by that datagram's
payload, frames in datagram order with no interleaving. -/
theorem C1_udp_datagram_framing (ds : List Datagram) (b : UdpBackend)
    (conn : TlsSession)
    (hok : (do_read (ds.map RecvResult.ok) b conn).fst.status ≠ .Closing)
    (hlen : ∀ d ∈ ds, d.payload.length < 65536) :
    (do_read (ds.map RecvResult.ok) b conn).snd.buf
      = conn.buf
        ++ (ds.map fun d =>
              UdpAssociate.generate d.addr d.payload.length ++ d.payload).flatten := by
  induction ds generalizing b conn with
  | nil => simp [do_read]
  | cons d ds ih =>
    simp only [List.map_cons] at hok ⊢
    cases h1 : write_session conn
        (UdpAssociate.generate d.addr (d.payload.length % 65536)) with
    | none => simp [do_read, h1] at hok
    | some conn' =>
      cases h2 : write_session conn' d.payload with
      | none => simp [do_read, h1, h2] at hok
      | some conn'' =>
        simp only [do_read, h1, h2] at hok ⊢
        rw [ih _ conn'' hok (fun x hx => hlen x (List.mem_cons_of_mem d hx)),
          write_session_some conn' conn'' d.payload h2,
          write_session_some conn conn' _ h1,
          Nat.mod_eq_of_lt (hlen d (List.mem_cons_self d ds))]
        simp [List.append_assoc]

/-- C1, witness: two datagrams from 8.8.8.8:53 and 1.2.3.4:99 drained into
a session with room to spare produce exactly their two frames in order. -/
theorem C1_udp_datagram_framing_witness :
    (do_read (([⟨[7, 8], .v4 8 8 8 8 53⟩, ⟨[9], .v4 1 2 3 4 99⟩] : List Datagram).map RecvResult.ok)
        b0 ⟨[], 100⟩).snd.buf
      = ([] : List Nat)
        ++ (([⟨[7, 8], .v4 8 8 8 8 53⟩, ⟨[9], .v4 1 2 3 4 99⟩] : List Datagram).map fun d =>
              UdpAssociate.generate d.addr d.payload.length ++ d.payload).flatten :=
  C1_udp_datagram_framing ([⟨[7, 8], .v4 8 8 8 8 53⟩, ⟨[9], .v4 1 2 3 4 99⟩] : List Datagram)
    b0 ⟨[], 100⟩ (by decide) (by decide)

end TrojanRs
